import Mathlib

/-!
# StylistGuild — verification of the official/addon JSON reconciliation workflow

Shallow embedding of the reconciliation, persistence, entry-building and
validation code of the StylistGuild repository, together with proofs checking
the repository's specification against it.

Conventions:
* Python dictionaries (theme records) are association lists `List (String × Val)`
  where `Val` covers the flat JSON value shapes the theme data model uses
  (spec §3: records are flat objects whose values are null, booleans, numbers,
  strings, or arrays of strings).
* Python `sorted` on strings compares by code points; it is modelled by an
  insertion sort under a code-point comparison on `List Char`.
  `sorted(set(xs))` is modelled as deduplication followed by that sort; both
  produce the unique ascending listing of the distinct elements.
* The on-disk state is an association list from locations to stored documents;
  a missing key models an absent file, and a stored document distinguishes the
  three cases the loaders branch on: unparsable content, valid JSON that is
  not an array, and an array of records.
* Numeric results (the synchronisation percentage) are modelled exactly over
  `ℚ`; the Python source computes them in floating point.
-/

/-! ## Python string primitives (kernel-computable models) -/

/-- Whitespace characters removed by Python `str.strip()`. -/
def pyWhitespace (c : Char) : Bool :=
  c = ' ' || c = '\t' || c = '\n' || c = '\r' || c = '\x0b' || c = '\x0c'

/-- Python `str.strip()`: remove leading and trailing whitespace. -/
def pyStrip (s : String) : String :=
  String.mk (((s.data.dropWhile pyWhitespace).reverse.dropWhile pyWhitespace).reverse)

/-- Helper for `pySplitComma`: accumulate the current field (reversed). -/
def pySplitCommaAux : List Char → List Char → List String
  | [], acc => [String.mk acc.reverse]
  | c :: cs, acc =>
    if c = ',' then String.mk acc.reverse :: pySplitCommaAux cs []
    else pySplitCommaAux cs (c :: acc)

/-- Python `s.split(",")`: split on every comma, keeping empty fields
(`"".split(",") = [""]`, `"a,,b".split(",") = ["a","","b"]`). -/
def pySplitComma (s : String) : List String :=
  pySplitCommaAux s.data []

/-- Code-point lexicographic `≤` on character lists (Python string order). -/
def strLeAux : List Char → List Char → Bool
  | [], _ => true
  | _ :: _, [] => false
  | a :: as, b :: bs =>
    if a.toNat < b.toNat then true
    else if b.toNat < a.toNat then false
    else strLeAux as bs

/-- Python string comparison `a <= b` (code-point lexicographic order). -/
def strLe (a b : String) : Bool :=
  strLeAux a.data b.data

/-- Insert a string into a list, before the first element it is `≤` to. -/
def insertSorted (x : String) : List String → List String
  | [] => [x]
  | y :: ys => if strLe x y then x :: y :: ys else y :: insertSorted x ys

/-- Python `sorted(xs)` for lists of strings: insertion sort under the
code-point order. -/
def pySorted (xs : List String) : List String :=
  xs.foldr insertSorted []

/-- Python `sorted(set(xs))`: the ascending listing of the distinct elements
of `xs`. -/
def pySortedSet (xs : List String) : List String :=
  pySorted xs.dedup

theorem mem_insertSorted {a x : String} {l : List String} :
    a ∈ insertSorted x l ↔ a = x ∨ a ∈ l := by
  induction l with
  | nil => simp [insertSorted]
  | cons y ys ih =>
    by_cases h : strLe x y = true
    · simp [insertSorted, h]
    · simp only [insertSorted, h, if_neg, Bool.not_eq_true] at *
      simp [List.mem_cons, ih]
      tauto

theorem mem_pySorted {a : String} {xs : List String} :
    a ∈ pySorted xs ↔ a ∈ xs := by
  induction xs with
  | nil => simp [pySorted]
  | cons x l ih =>
    simp only [pySorted, List.foldr_cons] at *
    rw [mem_insertSorted, ih, List.mem_cons]

theorem mem_pySortedSet {a : String} {xs : List String} :
    a ∈ pySortedSet xs ↔ a ∈ xs := by
  rw [pySortedSet, mem_pySorted, List.mem_dedup]

/-! ## Data model: flat theme records -/

/-- Flat JSON values as they occur in the theme records (spec §3 data model):
null, booleans, numbers, strings, and arrays of strings (`modes`, `tags`,
`screenshots-side`). Python's `None` is `Val.null`. -/
inductive Val where
  | null
  | bool (b : Bool)
  | num (n : Int)
  | str (s : String)
  | strList (xs : List String)
deriving DecidableEq, Repr

/-- A theme record: a Python dict, modelled as an association list with the
first binding of a key authoritative (Python dict keys are unique). -/
abbrev Record := List (String × Val)

/-- Python `d.get(k)`: the value at `k`, or `None` when the key is absent. -/
def pyGet (r : Record) (k : String) : Val :=
  (r.lookup k).getD Val.null

/-- Python `d.get(k, default)` with an explicit default. -/
def pyGetD (r : Record) (k : String) (d : Val) : Val :=
  (r.lookup k).getD d

/-- Python truthiness of a flat value (`if entry.get("repo")`). -/
def pyTruthy : Val → Bool
  | .null => false
  | .bool b => b
  | .num n => decide (n ≠ 0)
  | .str s => decide (s ≠ "")
  | .strList xs => decide (xs ≠ [])

/-! ## Reconciler (`pythonThemeTools/data_synchronizer.py`) -/

/-- `get_official_repos` / `get_addon_repos`
(`pythonThemeTools/data_synchronizer.py`, lines 61–91): the set of `repo`
values of the records that carry a `repo` key, as a deduplicated list. -/
def getRepos (data : List Record) : List Val :=
  (data.filterMap (fun theme => theme.lookup "repo")).dedup

/-- `DataSynchronizer.find_missing_addon_entries`
(`pythonThemeTools/data_synchronizer.py`, lines 93–109): keeps every official
record whose `theme.get('repo')` (with `None` for an absent key) lies in the
set difference `official_repos - addon_repos`. -/
def findMissingAddonEntries (official addon : List Record) : List Record :=
  let officialRepos := getRepos official
  let addonRepos := getRepos addon
  let missingRepos := officialRepos.filter (fun r => decide (r ∉ addonRepos))
  official.filter (fun theme => decide (pyGet theme "repo" ∈ missingRepos))

/-- `DataSynchronizer.find_orphaned_addon_entries`
(`pythonThemeTools/data_synchronizer.py`, lines 111–127): the symmetric
difference direction, addon records whose key is absent from official. -/
def findOrphanedAddonEntries (official addon : List Record) : List Record :=
  let officialRepos := getRepos official
  let addonRepos := getRepos addon
  let orphanedRepos := addonRepos.filter (fun r => decide (r ∉ officialRepos))
  addon.filter (fun theme => decide (pyGet theme "repo" ∈ orphanedRepos))

/-- The reconciliation result as the specification words it (spec §4.3): every
official record whose `repo` key is present and lies in `K_o − K_a`, records
lacking a `repo` field excluded from the key sets and from the result. -/
def specFindMissing (official addon : List Record) : List Record :=
  official.filter (fun theme =>
    match theme.lookup "repo" with
    | some r => decide (r ∈ getRepos official ∧ r ∉ getRepos addon)
    | none => false)

theorem lookup_mem_getRepos {t : Record} {data : List Record} {r : Val}
    (ht : t ∈ data) (hr : t.lookup "repo" = some r) : r ∈ getRepos data := by
  rw [getRepos, List.mem_dedup, List.mem_filterMap]
  exact ⟨t, ht, hr⟩

/-- Claim C1 (amended): provided no official record carries a `repo` field
whose value is JSON `null`, `find_missing_addon_entries` returns exactly the
official records whose `repo` key is present and lies in `K_o − K_a`, in
original order, excluding records that lack a `repo` field. (Without the
proviso, a record lacking `repo` is keyed as `None` by `theme.get('repo')`
and is returned whenever `null ∈ K_o − K_a`.) -/
theorem findMissing_matches_spec_of_no_null_repo (official addon : List Record)
    (h : Val.null ∉ getRepos official) :
    findMissingAddonEntries official addon = specFindMissing official addon := by
  unfold findMissingAddonEntries specFindMissing
  apply List.filter_congr
  intro t ht
  cases hr : t.lookup "repo" with
  | none =>
    simp only [pyGet, hr, Option.getD_none, decide_eq_false_iff_not]
    intro hmem
    exact h (List.mem_of_mem_filter hmem)
  | some r =>
    simp only [pyGet, hr, Option.getD_some]
    rw [decide_eq_decide]
    rw [List.mem_filter]
    constructor
    · intro ⟨hko, hka⟩
      exact ⟨hko, of_decide_eq_true hka⟩
    · intro ⟨_, hka⟩
      exact ⟨lookup_mem_getRepos ht hr, decide_eq_true hka⟩

/-- Witness for `findMissing_matches_spec_of_no_null_repo` at a concrete pair
of lists. -/
theorem findMissing_matches_spec_witness :
    Val.null ∉ getRepos [[("repo", Val.str "a/b")], [("repo", Val.str "c/d")]] ∧
      findMissingAddonEntries [[("repo", Val.str "a/b")], [("repo", Val.str "c/d")]]
          [[("repo", Val.str "a/b")]] =
        specFindMissing [[("repo", Val.str "a/b")], [("repo", Val.str "c/d")]]
          [[("repo", Val.str "a/b")]] :=
  ⟨by decide, findMissing_matches_spec_of_no_null_repo _ _ (by decide)⟩

/-- Claim C1 (counterexample): with official list `[{"repo": null}, {}]` and
an empty addon list, the record `{}` lacks a `repo` field yet is included in
the result of `find_missing_addon_entries` (its `get('repo')` default `None`
equals the `null` key contributed by the first record), contradicting the
claim that records lacking a `repo` field are excluded from the result. -/
theorem findMissing_includes_unkeyable_on_null_repo :
    (([] : Record).lookup "repo" = none) ∧
      ([] : Record) ∈ findMissingAddonEntries [[("repo", Val.null)], []] [] ∧
      findMissingAddonEntries [[("repo", Val.null)], []] [] ≠
        specFindMissing [[("repo", Val.null)], []] [] := by
  refine ⟨rfl, ?_, ?_⟩ <;> decide

/-! ## Record Store (`pythonThemeTools/file_manager.py`) -/

/-- A file location, split into the components `pathlib.Path` exposes:
containing directory, stem (file name without the last extension), and
suffix (the last extension, dot included). -/
structure Loc where
  dir : String
  stem : String
  ext : String
deriving DecidableEq, Repr

/-- An on-disk JSON document, distinguishing the cases the loaders branch on:
content that fails to parse (`json.JSONDecodeError`), valid JSON that is not
an array (`not isinstance(data, list)`), and an array of records. -/
inductive StoredJson where
  | invalid (raw : String)
  | nonList
  | list (records : List Record)
deriving DecidableEq, Repr

/-- The file system: an association of locations to stored documents.
A location with no binding models an absent file. -/
abbrev Fs := List (Loc × StoredJson)

/-- Read the document at a location, if a file exists there. -/
def fsLookup (fs : Fs) (l : Loc) : Option StoredJson :=
  (fs.find? (fun p => decide (p.1 = l))).map (fun p => p.2)

/-- Write a document at a location, replacing any previous file there. -/
def fsWrite (fs : Fs) (l : Loc) (d : StoredJson) : Fs :=
  (l, d) :: fs.filter (fun p => decide (p.1 ≠ l))

theorem fsLookup_fsWrite_self (fs : Fs) (l : Loc) (d : StoredJson) :
    fsLookup (fsWrite fs l d) l = some d := by
  rw [fsLookup, fsWrite, List.find?_cons_of_pos _ (by simp)]
  rfl

theorem fsLookup_fsWrite_ne (fs : Fs) {l l' : Loc} (d : StoredJson)
    (h : l' ≠ l) : fsLookup (fsWrite fs l d) l' = fsLookup fs l' := by
  rw [fsLookup, fsWrite, List.find?_cons_of_neg _ (by simpa using Ne.symm h), fsLookup]
  congr 1
  induction fs with
  | nil => rfl
  | cons p ps ih =>
    by_cases hp : p.1 = l
    · rw [List.filter_cons_of_neg (by simp [hp])]
      rw [List.find?_cons_of_neg _ (by simp [hp, Ne.symm h])]
      exact ih
    · rw [List.filter_cons_of_pos (by simp [hp])]
      by_cases hp' : p.1 = l'
      · rw [List.find?_cons_of_pos _ (by simp [hp']), List.find?_cons_of_pos _ (by simp [hp'])]
      · rw [List.find?_cons_of_neg _ (by simp [hp']), List.find?_cons_of_neg _ (by simp [hp'])]
        exact ih

/-- How a load call ended; the code reports each case with a distinct printed
message (`file_manager.py`, lines 75–94) but returns a list in all of them. -/
inductive LoadOutcome where
  | fileMissing
  | parseError
  | notAList
  | ok
deriving DecidableEq, Repr

/-- `FileManager.load_json_data` (`pythonThemeTools/file_manager.py`,
lines 61–94), together with which branch was taken: returns `[]` when the
file is absent, `[]` when the content is not valid JSON (the
`json.JSONDecodeError` handler), `[]` when the content is valid JSON but not
an array, and the parsed records in on-disk order otherwise. -/
def loadJsonDataFull (fs : Fs) (l : Loc) : List Record × LoadOutcome :=
  match fsLookup fs l with
  | none => ([], .fileMissing)
  | some (.invalid _) => ([], .parseError)
  | some .nonList => ([], .notAList)
  | some (.list rs) => (rs, .ok)

/-- The list `FileManager.load_json_data` returns to its caller. -/
def loadJsonData (fs : Fs) (l : Loc) : List Record :=
  (loadJsonDataFull fs l).1

/-- The backup location `FileManager.backup_json_files` writes
(`pythonThemeTools/file_manager.py`, line 243):
`backup_dir / f"{source_path.stem}_{timestamp}{source_path.suffix}"`, where
`timestamp` already carries `_{backup_suffix}` when a suffix was passed. -/
def backupLoc (backupDir : String) (l : Loc) (timestamp : String) : Loc :=
  ⟨backupDir, l.stem ++ "_" ++ timestamp, l.ext⟩

/-- `FileManager.backup_json_files` (`pythonThemeTools/file_manager.py`,
lines 215–255): for each path in turn, copy the existing file to a
timestamped name in the backup directory (skipping and reporting `False` for
absent files). `ts` is the `%Y%m%d_%H%M%S` timestamp taken at call time. -/
def backupJsonFiles (fs : Fs) (backupDir : String) (paths : List Loc)
    (ts : String) (backupSuffix : Option String) : Fs × List (Loc × Bool) :=
  let timestamp := match backupSuffix with
    | some s => ts ++ "_" ++ s
    | none => ts
  paths.foldl
    (fun acc p =>
      match fsLookup acc.1 p with
      | none => (acc.1, acc.2 ++ [(p, false)])
      | some d => (fsWrite acc.1 (backupLoc backupDir p timestamp) d, acc.2 ++ [(p, true)]))
    (fs, [])

/-- `FileManager.save_json_data` (`pythonThemeTools/file_manager.py`,
lines 96–131): when a backup is requested and a file already exists at the
location, first call `backup_json_files([path], "pre_save")`; then write the
records as a JSON array at the location. I/O failures are outside the model,
so the call always succeeds. -/
def saveJsonData (fs : Fs) (backupDir : String) (l : Loc)
    (data : List Record) (createBackup : Bool) (ts : String) : Fs :=
  let fs1 :=
    if createBackup && (fsLookup fs l).isSome then
      (backupJsonFiles fs backupDir [l] ts (some "pre_save")).1
    else fs
  fsWrite fs1 l (.list data)

theorem loadJsonData_saveJsonData (fs : Fs) (backupDir : String) (l : Loc)
    (data : List Record) (createBackup : Bool) (ts : String) :
    loadJsonData (saveJsonData fs backupDir l data createBackup ts) l = data := by
  rw [loadJsonData, loadJsonDataFull, saveJsonData, fsLookup_fsWrite_self]

theorem stem_append_ne (s t : String) : s ++ "_" ++ t ≠ s := by
  intro hcontra
  have hlen := congrArg String.length hcontra
  have h1 : "_".length = 1 := rfl
  simp only [String.length_append, h1] at hlen
  omega

theorem backupLoc_ne (backupDir : String) (l : Loc) (timestamp : String) :
    backupLoc backupDir l timestamp ≠ l := by
  intro hcontra
  exact stem_append_ne l.stem timestamp (congrArg Loc.stem hcontra)

/-- Claim C4 (confirmed): saving a record list and loading it back from the
same location returns the list unchanged — element order and every record's
fields and values preserved — for any prior file-system state, backup
setting and timestamp. -/
theorem save_load_round_trip (fs : Fs) (backupDir : String) (l : Loc)
    (data : List Record) (createBackup : Bool) (ts : String) :
    loadJsonData (saveJsonData fs backupDir l data createBackup ts) l = data :=
  loadJsonData_saveJsonData fs backupDir l data createBackup ts

/-- Claim C5 (amended): `load_json_data` returns `[]` when no file exists at
the location (reported as normal, not an error); when a file exists whose
content is not valid JSON, or is valid JSON but not an array, it likewise
returns `[]` after printing an error — it never fails with a parse error in
place of returning a result; on success it returns the records in on-disk
order. The branch taken is exposed as the `LoadOutcome` component. -/
theorem load_json_data_behavior (fs : Fs) (l : Loc) :
    (fsLookup fs l = none → loadJsonDataFull fs l = ([], .fileMissing)) ∧
      (∀ raw, fsLookup fs l = some (.invalid raw) →
        loadJsonDataFull fs l = ([], .parseError)) ∧
      (fsLookup fs l = some .nonList → loadJsonDataFull fs l = ([], .notAList)) ∧
      (∀ rs, fsLookup fs l = some (.list rs) → loadJsonDataFull fs l = (rs, .ok)) := by
  refine ⟨?_, ?_, ?_, ?_⟩
  · intro h; rw [loadJsonDataFull, h]
  · intro raw h; rw [loadJsonDataFull, h]
  · intro h; rw [loadJsonDataFull, h]
  · intro rs h; rw [loadJsonDataFull, h]

/-- Witness for `load_json_data_behavior` at concrete file-system states. -/
theorem load_json_data_behavior_witness :
    loadJsonDataFull [] ⟨".", "a", ".json"⟩ = ([], .fileMissing) ∧
      loadJsonDataFull [(⟨".", "a", ".json"⟩, .invalid "oops")] ⟨".", "a", ".json"⟩ =
        ([], .parseError) ∧
      loadJsonDataFull [(⟨".", "a", ".json"⟩, .nonList)] ⟨".", "a", ".json"⟩ =
        ([], .notAList) ∧
      loadJsonDataFull [(⟨".", "a", ".json"⟩, .list [[("repo", Val.str "a/b")]])]
          ⟨".", "a", ".json"⟩ =
        ([[("repo", Val.str "a/b")]], .ok) :=
  ⟨(load_json_data_behavior _ _).1 rfl,
   (load_json_data_behavior _ _).2.1 "oops" rfl,
   (load_json_data_behavior _ _).2.2.1 rfl,
   (load_json_data_behavior _ _).2.2.2 [[("repo", Val.str "a/b")]] rfl⟩

/-- Claim C5 (counterexample): on a file whose content is not valid JSON,
`load_json_data` does not fail with a parse error — it returns the empty
list, the very value it returns for an absent file (the parse-error branch
is only visible in the printed message, modelled by the `LoadOutcome`). -/
theorem load_parse_error_returns_empty_list :
    loadJsonData [(⟨".", "tags", ".json"⟩, .invalid "not json")] ⟨".", "tags", ".json"⟩ =
        ([] : List Record) ∧
      loadJsonData [(⟨".", "tags", ".json"⟩, .invalid "not json")] ⟨".", "tags", ".json"⟩ =
        loadJsonData [] ⟨".", "tags", ".json"⟩ ∧
      (loadJsonDataFull [(⟨".", "tags", ".json"⟩, .invalid "not json")]
          ⟨".", "tags", ".json"⟩).2 = .parseError := by
  refine ⟨?_, ?_, ?_⟩ <;> rfl

/-- Claim C3 (amended): a `save` with backup enabled on a pre-existing file
creates, before overwriting, exactly one new Backup Artifact whose content
equals the pre-save on-disk content; its name is
`{original-stem}_{YYYYMMDD_HHMMSS}_pre_save{ext}` — `save_json_data` passes
`"pre_save"` as the backup suffix, which `backup_json_files` appends to the
timestamp — not the `{original-stem}_{YYYYMMDD_HHMMSS}{ext}` of the claim.
No location other than the saved file and that one backup location changes. -/
theorem save_creates_one_pre_save_backup (fs : Fs) (backupDir : String) (l : Loc)
    (data : List Record) (ts : String) (d : StoredJson)
    (hex : fsLookup fs l = some d) :
    fsLookup (saveJsonData fs backupDir l data true ts)
        (backupLoc backupDir l (ts ++ "_" ++ "pre_save")) = some d ∧
      fsLookup (saveJsonData fs backupDir l data true ts) l = some (.list data) ∧
      ∀ l', l' ≠ l → l' ≠ backupLoc backupDir l (ts ++ "_" ++ "pre_save") →
        fsLookup (saveJsonData fs backupDir l data true ts) l' = fsLookup fs l' := by
  have hsave : saveJsonData fs backupDir l data true ts =
      fsWrite (fsWrite fs (backupLoc backupDir l (ts ++ "_" ++ "pre_save")) d) l
        (.list data) := by
    rw [saveJsonData, backupJsonFiles]
    simp [hex]
  refine ⟨?_, ?_, ?_⟩
  · rw [hsave, fsLookup_fsWrite_ne _ _ (backupLoc_ne backupDir l _),
      fsLookup_fsWrite_self]
  · rw [hsave, fsLookup_fsWrite_self]
  · intro l' hl hb
    rw [hsave, fsLookup_fsWrite_ne _ _ hl, fsLookup_fsWrite_ne _ _ hb]

/-- Witness for `save_creates_one_pre_save_backup` at a concrete state. -/
theorem save_creates_one_pre_save_backup_witness :
    fsLookup [(⟨".", "data", ".json"⟩, StoredJson.list [])] ⟨".", "data", ".json"⟩ =
        some (.list []) ∧
      fsLookup
        (saveJsonData [(⟨".", "data", ".json"⟩, StoredJson.list [])] "backups"
          ⟨".", "data", ".json"⟩ [[("repo", Val.str "a/b")]] true "20250101_120000")
        (backupLoc "backups" ⟨".", "data", ".json"⟩ ("20250101_120000" ++ "_" ++ "pre_save")) =
        some (.list []) :=
  ⟨rfl,
   (save_creates_one_pre_save_backup [(⟨".", "data", ".json"⟩, StoredJson.list [])]
      "backups" ⟨".", "data", ".json"⟩ [[("repo", Val.str "a/b")]] "20250101_120000"
      (.list []) rfl).1⟩

/-- Claim C3 (counterexample): after saving over a pre-existing file with
timestamp `20250101_120000`, no Backup Artifact exists under the claimed name
`data_20250101_120000.json`; the one new artifact is
`data_20250101_120000_pre_save.json`, carrying the pre-save content. -/
theorem save_backup_not_at_claimed_name :
    fsLookup
        (saveJsonData [(⟨".", "data", ".json"⟩, StoredJson.list [[("repo", Val.str "a/b")]])]
          "backups" ⟨".", "data", ".json"⟩ [] true "20250101_120000")
        ⟨"backups", "data_20250101_120000", ".json"⟩ = none ∧
      fsLookup
        (saveJsonData [(⟨".", "data", ".json"⟩, StoredJson.list [[("repo", Val.str "a/b")]])]
          "backups" ⟨".", "data", ".json"⟩ [] true "20250101_120000")
        ⟨"backups", "data_20250101_120000_pre_save", ".json"⟩ =
        some (.list [[("repo", Val.str "a/b")]]) := by
  refine ⟨?_, ?_⟩ <;> decide

/-! ## Batch Session (`batch_processor.py`, `debloated_batch_processor.py`) -/

/-- Python `str(...)` rendering of a flat value for message interpolation.
(Python renders quotes around the elements of a list; the model elides them —
no claim depends on the rendering of list-valued fields.) -/
def pyStr : Val → String
  | .null => "None"
  | .bool b => if b then "True" else "False"
  | .num n => toString n
  | .str s => s
  | .strList xs => "[" ++ String.intercalate ", " xs ++ "]"

/-- The error message recorded per failing record
(`batch_processor.py`, line 720): `f"Error processing {repo}: {str(e)}"`,
with `repo = official_entry.get("repo", "unknown")`. -/
def mkErrorMsg (entry : Record) (msg : String) : String :=
  "Error processing " ++ pyStr (pyGetD entry "repo" (.str "unknown")) ++ ": " ++ msg

/-- How one Entry Builder invocation ends, abstracting the interactive
prompts: a produced addon record, an intentional skip (builder returned
`None`), or a raised exception with its message. -/
inductive BuildOutcome where
  | produced (entry : Record)
  | skip
  | errored (msg : String)
deriving DecidableEq, Repr

def isProduced : BuildOutcome → Bool
  | .produced _ => true
  | _ => false

def isSkip : BuildOutcome → Bool
  | .skip => true
  | _ => false

def isErrored : BuildOutcome → Bool
  | .errored _ => true
  | _ => false

/-- The record a work item produced, if any. -/
def producedEntry (w : Record × BuildOutcome) : Option Record :=
  match w.2 with
  | .produced e => some e
  | _ => none

/-- The error message a work item recorded, if any. -/
def erroredDetail (w : Record × BuildOutcome) : Option String :=
  match w.2 with
  | .errored m => some (mkErrorMsg w.1 m)
  | _ => none

@[simp] theorem isProduced_produced (e : Record) : isProduced (.produced e) = true := rfl

@[simp] theorem isProduced_skip : isProduced .skip = false := rfl

@[simp] theorem isProduced_errored (m : String) : isProduced (.errored m) = false := rfl

@[simp] theorem isSkip_produced (e : Record) : isSkip (.produced e) = false := rfl

@[simp] theorem isSkip_skip : isSkip .skip = true := rfl

@[simp] theorem isSkip_errored (m : String) : isSkip (.errored m) = false := rfl

@[simp] theorem isErrored_produced (e : Record) : isErrored (.produced e) = false := rfl

@[simp] theorem isErrored_skip : isErrored .skip = false := rfl

@[simp] theorem isErrored_errored (m : String) : isErrored (.errored m) = true := rfl

@[simp] theorem producedEntry_eq (r : Record) (o : BuildOutcome) :
    producedEntry (r, o) = match o with | .produced e => some e | _ => none := rfl

@[simp] theorem erroredDetail_eq (r : Record) (o : BuildOutcome) :
    erroredDetail (r, o) =
      match o with | .errored m => some (mkErrorMsg r m) | _ => none := rfl

/-- The tally `process_missing_entries_interactive` accumulates and returns
(`batch_processor.py`, lines 690–696). -/
structure SessionResults where
  processed : Nat
  skipped : Nat
  errors : Nat
  createdEntries : List Record
  errorDetails : List String
deriving DecidableEq, Repr

/-- State of the per-record loop: the in-memory addon list, the tally, the
file system, and the file-system state observed after each completed
record. -/
structure LoopState where
  addonData : List Record
  results : SessionResults
  fs : Fs
  trace : List Fs
deriving Repr

/-- One iteration of the loop of `process_missing_entries_interactive`
(`batch_processor.py`, lines 701–722): a produced entry is appended to the
in-memory addon list and tallied; a skip or a caught exception only updates
the tally. The loop body contains no save call, so the file-system component
is passed through unchanged; the state after the record is appended to the
trace. -/
def interactiveLoopStep (st : LoopState) (w : Record × BuildOutcome) : LoopState :=
  match w.2 with
  | .produced entry =>
    ⟨st.addonData ++ [entry],
     ⟨st.results.processed + 1, st.results.skipped, st.results.errors,
      st.results.createdEntries ++ [entry], st.results.errorDetails⟩,
     st.fs, st.trace ++ [st.fs]⟩
  | .skip =>
    ⟨st.addonData,
     ⟨st.results.processed, st.results.skipped + 1, st.results.errors,
      st.results.createdEntries, st.results.errorDetails⟩,
     st.fs, st.trace ++ [st.fs]⟩
  | .errored msg =>
    ⟨st.addonData,
     ⟨st.results.processed, st.results.skipped, st.results.errors + 1,
      st.results.createdEntries, st.results.errorDetails ++ [mkErrorMsg w.1 msg]⟩,
     st.fs, st.trace ++ [st.fs]⟩

/-- `BatchProcessor.process_missing_entries_interactive`
(`batch_processor.py`, lines 673–733): load the addon store once, run the
per-record loop, then — "Save all changes at once" — perform a single save at
the end when at least one record was processed. `work` pairs each missing
record with its Entry Builder outcome; `saveOk` is the boolean the underlying
`FileManager.save_json_data` call reports (its I/O failure mode is outside
the pure file-system model); a failed final save adds one to the error tally
(line 731). Returns the tally, the final file system, and the trace of
file-system states after each record. -/
def processMissingEntriesInteractive (fs : Fs) (backupDir : String) (addonLoc : Loc)
    (ts : String) (saveOk : Bool) (work : List (Record × BuildOutcome)) :
    SessionResults × Fs × List Fs :=
  if work.isEmpty then (⟨0, 0, 0, [], []⟩, fs, [])
  else
    let st := work.foldl interactiveLoopStep
      ⟨loadJsonData fs addonLoc, ⟨0, 0, 0, [], []⟩, fs, []⟩
    if st.results.processed > 0 then
      if saveOk then
        (st.results, saveJsonData st.fs backupDir addonLoc st.addonData true ts, st.trace)
      else
        (⟨st.results.processed, st.results.skipped, st.results.errors + 1,
          st.results.createdEntries, st.results.errorDetails⟩, st.fs, st.trace)
    else (st.results, st.fs, st.trace)

theorem interactiveLoop_results (work : List (Record × BuildOutcome)) (st : LoopState) :
    (work.foldl interactiveLoopStep st).results =
      ⟨st.results.processed + work.countP (fun w => isProduced w.2),
       st.results.skipped + work.countP (fun w => isSkip w.2),
       st.results.errors + work.countP (fun w => isErrored w.2),
       st.results.createdEntries ++ work.filterMap producedEntry,
       st.results.errorDetails ++ work.filterMap erroredDetail⟩ := by
  induction work generalizing st with
  | nil => simp
  | cons w ws ih =>
    obtain ⟨r, o⟩ := w
    rw [List.foldl_cons, ih]
    cases o <;>
      simp [interactiveLoopStep, List.countP_cons, List.filterMap_cons] <;>
      omega

theorem interactiveLoop_fs_trace (work : List (Record × BuildOutcome)) (st : LoopState) :
    (work.foldl interactiveLoopStep st).fs = st.fs ∧
      (work.foldl interactiveLoopStep st).trace =
        st.trace ++ List.replicate work.length st.fs := by
  induction work generalizing st with
  | nil => simp
  | cons w ws ih =>
    rw [List.foldl_cons]
    have hfs : (interactiveLoopStep st w).fs = st.fs := by
      cases h : w.2 <;> simp [interactiveLoopStep, h]
    have htr : (interactiveLoopStep st w).trace = st.trace ++ [st.fs] := by
      cases h : w.2 <;> simp [interactiveLoopStep, h]
    obtain ⟨h1, h2⟩ := ih (interactiveLoopStep st w)
    rw [h1, h2, hfs, htr]
    simp [List.replicate_succ]

theorem outcome_counts_partition (work : List (Record × BuildOutcome)) :
    work.countP (fun w => isProduced w.2) + work.countP (fun w => isSkip w.2) +
      work.countP (fun w => isErrored w.2) = work.length := by
  induction work with
  | nil => simp
  | cons w ws ih =>
    obtain ⟨r, o⟩ := w
    cases o <;> simp [List.countP_cons] <;> omega

/-- Claim C8 (confirmed): for every run of
`process_missing_entries_interactive`, the session terminates with a tally in
which each missing record contributes to exactly one of processed / skipped /
errors according to its Entry Builder outcome — an exception is caught,
tallied, and recorded as a human-readable message in `error_details` while
the remaining records are still processed; the counts of the three outcomes
sum to the number of missing records, and the errors tally additionally
counts one non-record error when the final save reports failure. -/
theorem batch_session_tally (fs : Fs) (backupDir : String) (addonLoc : Loc)
    (ts : String) (saveOk : Bool) (work : List (Record × BuildOutcome)) :
    (processMissingEntriesInteractive fs backupDir addonLoc ts saveOk work).1 =
      ⟨work.countP (fun w => isProduced w.2),
       work.countP (fun w => isSkip w.2),
       work.countP (fun w => isErrored w.2) +
         (if 0 < work.countP (fun w => isProduced w.2) ∧ saveOk = false then 1 else 0),
       work.filterMap producedEntry,
       work.filterMap erroredDetail⟩ ∧
      work.countP (fun w => isProduced w.2) + work.countP (fun w => isSkip w.2) +
        work.countP (fun w => isErrored w.2) = work.length := by
  refine ⟨?_, outcome_counts_partition work⟩
  have hres := interactiveLoop_results work
    ⟨loadJsonData fs addonLoc, ⟨0, 0, 0, [], []⟩, fs, []⟩
  by_cases hw : work.isEmpty
  · obtain rfl := List.isEmpty_iff.mp hw
    simp [processMissingEntriesInteractive]
  · rw [processMissingEntriesInteractive, if_neg hw]
    simp only [hres, Nat.zero_add, List.nil_append]
    by_cases hp : 0 < work.countP (fun w => isProduced w.2)
    · rw [if_pos hp]
      cases saveOk with
      | true => simp
      | false => simp [hp]
    · rw [if_neg hp]
      simp [hp]

/-- Concrete values for the Claim C2 counterexample: an addon store holding
the empty array, and a session over two missing records both of which the
Entry Builder turns into addon records. -/
def c2AddonLoc : Loc := ⟨".", "community-css-themes-tag-browser", ".json"⟩

def c2Fs0 : Fs := [(c2AddonLoc, .list [])]

def c2Entry1 : Record := [("repo", Val.str "a/b"), ("tags", Val.strList ["dark", "minimalistic"])]

def c2Entry2 : Record := [("repo", Val.str "c/d"), ("tags", Val.strList ["light"])]

def c2Work : List (Record × BuildOutcome) :=
  [([("repo", Val.str "a/b")], .produced c2Entry1),
   ([("repo", Val.str "c/d")], .produced c2Entry2)]

/-- Claim C2 (counterexample): in `batch_processor.py`'s
`process_missing_entries_interactive`, a session producing two records leaves
the file system untouched after each record (the trace is the initial state
twice): in particular, at the point between the two records the first
produced record is not on disk — the addon store there still holds the
initial empty array — and both records reach disk only through the single
batched save at session end. This contradicts the claimed
save-after-each-success behaviour. -/
theorem batch_session_no_save_between_records :
    (processMissingEntriesInteractive c2Fs0 "backups" c2AddonLoc "20250101_120000"
        true c2Work).2.2 = [c2Fs0, c2Fs0] ∧
      loadJsonData c2Fs0 c2AddonLoc = [] ∧
      loadJsonData
        (processMissingEntriesInteractive c2Fs0 "backups" c2AddonLoc "20250101_120000"
          true c2Work).2.1 c2AddonLoc = [c2Entry1, c2Entry2] := by
  refine ⟨?_, ?_, ?_⟩ <;> decide

/-- The tail of `BatchProcessor.interactive_entry_builder` in
`debloated_batch_processor.py` (lines 606–615): on a successful build the
builder itself reloads the addon store, appends the new entry, and saves the
whole store immediately. -/
def debloatedBuilderSave (fs : Fs) (backupDir : String) (addonLoc : Loc)
    (ts : String) (entry : Record) : Fs :=
  saveJsonData fs backupDir addonLoc (loadJsonData fs addonLoc ++ [entry]) true ts

/-- One record of the debloated session loop: a produced entry has already
been persisted inside the builder; a skip or a caught exception leaves the
file system unchanged. -/
def debloatedStep (backupDir : String) (addonLoc : Loc) (ts : String)
    (fs : Fs) (w : Record × BuildOutcome) : Fs :=
  match w.2 with
  | .produced entry => debloatedBuilderSave fs backupDir addonLoc ts entry
  | .skip => fs
  | .errored _ => fs

/-- The file-system effect of the debloated session loop over a work list. -/
def debloatedLoopFs (backupDir : String) (addonLoc : Loc) (ts : String)
    (fs : Fs) (work : List (Record × BuildOutcome)) : Fs :=
  work.foldl (debloatedStep backupDir addonLoc ts) fs

/-- Claim C2 (amended): in `debloated_batch_processor.py` the Entry Builder
itself persists the whole addon store immediately after each produced record,
so after any prefix of the session the on-disk addon store equals the
initially-stored list extended by exactly the records produced so far (first
conjunct; the second conjunct identifies the state after a prefix with an
intermediate state of the full run). In `batch_processor.py`'s
`process_missing_entries_interactive`, by contrast, the loop never touches
the file system — every intermediate state equals the initial one (third
conjunct) — and produced records reach disk only through a single batched
save at session end. -/
theorem debloated_builder_persists_each_entry (backupDir : String) (addonLoc : Loc)
    (ts : String) :
    (∀ fs work, loadJsonData (debloatedLoopFs backupDir addonLoc ts fs work) addonLoc =
        loadJsonData fs addonLoc ++ work.filterMap producedEntry) ∧
      (∀ fs pre post, debloatedLoopFs backupDir addonLoc ts fs (pre ++ post) =
        debloatedLoopFs backupDir addonLoc ts
          (debloatedLoopFs backupDir addonLoc ts fs pre) post) ∧
      (∀ fs ts2 saveOk work,
        (processMissingEntriesInteractive fs backupDir addonLoc ts2 saveOk work).2.2 =
          List.replicate work.length fs) := by
  refine ⟨?_, ?_, ?_⟩
  · intro fs work
    induction work generalizing fs with
    | nil => simp [debloatedLoopFs]
    | cons w ws ih =>
      obtain ⟨r, o⟩ := w
      cases o with
      | produced e =>
        rw [debloatedLoopFs, List.foldl_cons]
        have hstep : debloatedStep backupDir addonLoc ts fs (r, .produced e) =
            saveJsonData fs backupDir addonLoc (loadJsonData fs addonLoc ++ [e]) true ts := rfl
        rw [hstep, ← debloatedLoopFs, ih, loadJsonData_saveJsonData]
        simp
      | skip =>
        rw [debloatedLoopFs, List.foldl_cons]
        have hstep : debloatedStep backupDir addonLoc ts fs (r, .skip) = fs := rfl
        rw [hstep, ← debloatedLoopFs, ih]
        simp
      | errored m =>
        rw [debloatedLoopFs, List.foldl_cons]
        have hstep : debloatedStep backupDir addonLoc ts fs (r, .errored m) = fs := rfl
        rw [hstep, ← debloatedLoopFs, ih]
        simp
  · intro fs pre post
    rw [debloatedLoopFs, List.foldl_append, ← debloatedLoopFs, ← debloatedLoopFs]
  · intro fs ts2 saveOk work
    by_cases hw : work.isEmpty
    · obtain rfl := List.isEmpty_iff.mp hw
      simp [processMissingEntriesInteractive]
    · rw [processMissingEntriesInteractive, if_neg hw]
      have htr := (interactiveLoop_fs_trace work
        ⟨loadJsonData fs addonLoc, ⟨0, 0, 0, [], []⟩, fs, []⟩).2
      by_cases hp :
        0 < (work.foldl interactiveLoopStep
          ⟨loadJsonData fs addonLoc, ⟨0, 0, 0, [], []⟩, fs, []⟩).results.processed
      · rw [if_pos hp]
        cases saveOk <;> simpa using htr
      · rw [if_neg hp]
        simpa using htr

/-! ## Entry Builder tag logic -/

/-- `official_entry.get('modes', []) or []`: the `modes` list of an official
record, with absent, `null` and other falsy values becoming `[]`. (Non-list
truthy values do not occur in the theme data model, spec §3; they map to `[]`
here.) -/
def pyModes (r : Record) : List String :=
  match r.lookup "modes" with
  | some (.strList xs) => xs
  | _ => []

/-- The mode-derived default tags, shared verbatim by every builder variant
(`batch_processor.py` lines 892–898, `debloated_batch_processor.py` lines
531–537): `dark` if `'dark' in modes`, `light` if `'light' in modes`,
`dark_and_light` if both. -/
def modeDefaultTags (modes : List String) : List String :=
  (if modes.contains "dark" then ["dark"] else []) ++
    (if modes.contains "light" then ["light"] else []) ++
    (if modes.contains "dark" && modes.contains "light" then ["dark_and_light"] else [])

/-- The built-in tag macro table (`debloated_batch_processor.py`,
lines 79–89). -/
def defaultTagMacros : List (String × String) :=
  [("m", "minimalistic"), ("d", "dark"), ("l", "light"), ("p", "productivity"),
   ("g", "gaming"), ("c", "colorful"), ("s", "simple"), ("md", "modern"),
   ("ret", "retro")]

/-- The operator tag input parsing of the interactive builder
(`batch_processor.py` lines 928–934): split the already-stripped input on
commas, strip each piece, drop empties, and expand each token through the
macro table (`self.tag_macros.get(stripped, stripped)`). -/
def expandTags (macros : List (String × String)) (tagsInput : String) : List String :=
  if tagsInput = "" then []
  else
    (pySplitComma tagsInput).foldl
      (fun acc part =>
        let stripped := pyStrip part
        if stripped = "" then acc
        else acc ++ [(macros.lookup stripped).getD stripped])
      []

/-- The final tag computation of the interactive builder
(`batch_processor.py` lines 928–945, identically
`debloated_batch_processor.py` lines 562–577): append `minimalistic` to the
defaults unless `'notm' in tags`; remove the first `notm` occurrence from the
operator tags if present (`tags.remove('notm')`); the produced record's tags
are `sorted(set(tags + default_tags))`. -/
def interactiveFinalTags (macros : List (String × String)) (modes : List String)
    (tagsInput : String) : List String :=
  let defaultTags := modeDefaultTags modes
  let tags := expandTags macros tagsInput
  let defaultTags2 := if tags.contains "notm" then defaultTags
    else defaultTags ++ ["minimalistic"]
  let tags2 := if tags.contains "notm" then tags.erase "notm" else tags
  pySortedSet (tags2 ++ defaultTags2)

theorem mem_modeDefaultTags {a : String} {modes : List String}
    (h : a ∈ modeDefaultTags modes) :
    a = "dark" ∨ a = "light" ∨ a = "dark_and_light" := by
  revert h
  by_cases hd : modes.contains "dark" <;> by_cases hl : modes.contains "light" <;>
    simp [modeDefaultTags, hd, hl] <;> tauto

/-- Claim C7 (amended): if the comma-separated, macro-expanded token list
contains the literal token `notm` exactly once and does not itself contain
`minimalistic`, then the produced record's final tag set contains neither
`notm` nor `minimalistic`: `notm` suppresses the `minimalistic` default and
is itself removed. (The code removes only the first `notm` occurrence —
`tags.remove('notm')` — and never filters `minimalistic` supplied by the
operator, so both side conditions are necessary.) -/
theorem notm_suppresses_minimalistic (macros : List (String × String))
    (modes : List String) (tagsInput : String)
    (h1 : (expandTags macros tagsInput).count "notm" = 1)
    (h2 : "minimalistic" ∉ expandTags macros tagsInput) :
    "notm" ∉ interactiveFinalTags macros modes tagsInput ∧
      "minimalistic" ∉ interactiveFinalTags macros modes tagsInput := by
  have hmem : "notm" ∈ expandTags macros tagsInput :=
    List.count_pos_iff.mp (by omega)
  have hc : (expandTags macros tagsInput).contains "notm" = true := by
    simpa using hmem
  rw [interactiveFinalTags]
  simp only [hc, if_pos]
  constructor
  · intro habs
    rw [mem_pySortedSet, List.mem_append] at habs
    rcases habs with habs | habs
    · have := List.count_erase_self "notm" (expandTags macros tagsInput)
      rw [h1] at this
      exact (List.count_eq_zero.mp this) habs
    · rcases mem_modeDefaultTags habs with h | h | h <;> simp at h
  · intro habs
    rw [mem_pySortedSet, List.mem_append] at habs
    rcases habs with habs | habs
    · exact h2 ((List.erase_sublist "notm" (expandTags macros tagsInput)).subset habs)
    · rcases mem_modeDefaultTags habs with h | h | h <;> simp at h

/-- Witness for `notm_suppresses_minimalistic`: operator input `"notm"` on a
dark-mode theme with the built-in macro table. -/
theorem notm_suppresses_minimalistic_witness :
    (expandTags defaultTagMacros "notm").count "notm" = 1 ∧
      "minimalistic" ∉ expandTags defaultTagMacros "notm" ∧
      ("notm" ∉ interactiveFinalTags defaultTagMacros ["dark"] "notm" ∧
        "minimalistic" ∉ interactiveFinalTags defaultTagMacros ["dark"] "notm") :=
  ⟨by decide, by decide,
   notm_suppresses_minimalistic defaultTagMacros ["dark"] "notm" (by decide) (by decide)⟩

/-- Claim C7 (counterexample): the claim fails as stated. With operator input
`"notm,notm"` the expanded token list contains `notm`, yet the final tag set
is `["notm"]` — `tags.remove('notm')` removes only the first occurrence, so
the second survives into the stored tags. And with input `"notm, m"` (the
`m` macro expands to `minimalistic`) the final tag set contains
`minimalistic`, since operator-supplied tags are never filtered against the
suppressed default. -/
theorem notm_in_final_tags_on_duplicate :
    interactiveFinalTags defaultTagMacros [] "notm,notm" = ["notm"] ∧
      "notm" ∈ interactiveFinalTags defaultTagMacros [] "notm,notm" ∧
      "minimalistic" ∈ interactiveFinalTags defaultTagMacros [] "notm, m" := by
  refine ⟨?_, ?_, ?_⟩ <;> decide

/-! ## Automatic (non-interactive) Entry Builder -/

/-- `_create_minimal_addon_entry` in
`Old/integrated_batch_processor_complete.py` (lines 1180–1197): auto tags
start from `['minimalistic']`, gain the mode-derived defaults, and are
sorted. -/
def createMinimalAddonEntryComplete (officialEntry : Record) : Record :=
  [("repo", pyGet officialEntry "repo"),
   ("screenshot-main", pyGetD officialEntry "screenshot" (.str "")),
   ("screenshots-side", Val.strList []),
   ("tags", Val.strList (pySorted ("minimalistic" :: modeDefaultTags (pyModes officialEntry))))]

/-- `_create_minimal_addon_entry` in `Old/batch_processor (2).py`
(lines 843–858): auto tags start empty — no `minimalistic` — and are returned
unsorted. -/
def createMinimalAddonEntryOld2 (officialEntry : Record) : Record :=
  [("repo", pyGet officialEntry "repo"),
   ("screenshot-main", pyGetD officialEntry "screenshot" (.str "")),
   ("screenshots-side", Val.strList []),
   ("tags", Val.strList (modeDefaultTags (pyModes officialEntry)))]

/-- The automatic Entry Builder output as the claim words it:
`{repo, screenshot-main: official.screenshot, screenshots-side: [],
tags: sorted(set(default_tags))}` with `default_tags` containing `dark` iff
`dark ∈ modes`, `light` iff `light ∈ modes`, `dark_and_light` iff both, and
always `minimalistic`. -/
def specAutoEntry (officialEntry : Record) : Record :=
  [("repo", pyGet officialEntry "repo"),
   ("screenshot-main", pyGetD officialEntry "screenshot" (.str "")),
   ("screenshots-side", Val.strList []),
   ("tags", Val.strList (pySortedSet (modeDefaultTags (pyModes officialEntry) ++ ["minimalistic"])))]

theorem pySorted_minimalistic_cons (modes : List String) :
    pySorted ("minimalistic" :: modeDefaultTags modes) =
      pySortedSet (modeDefaultTags modes ++ ["minimalistic"]) := by
  unfold modeDefaultTags
  cases modes.contains "dark" <;> cases modes.contains "light" <;> decide

/-- The official record of the claim's concrete scenario. -/
def c6Official : Record :=
  [("repo", Val.str "a/b"), ("name", Val.str "Theme B"), ("author", Val.str "X"),
   ("screenshot", Val.str "s.png"), ("modes", Val.strList ["dark"])]

/-- Claim C6 (amended): for the automatic builder of
`integrated_batch_processor_complete.py`, the claim holds: on every official
record whose `repo` field is present it returns exactly
`{repo, screenshot-main: official.screenshot, screenshots-side: [],
tags: sorted(set(default_tags))}` with `minimalistic` always among the
defaults. (The variant in `Old/batch_processor (2).py` does not — see the
counterexample.) -/
theorem auto_entry_complete_matches_spec (r : Record)
    (_h : r.lookup "repo" ≠ none) :
    createMinimalAddonEntryComplete r = specAutoEntry r := by
  rw [createMinimalAddonEntryComplete, specAutoEntry, pySorted_minimalistic_cons]

/-- Witness for `auto_entry_complete_matches_spec` at the claim's concrete
record, checking also the concrete output the claim lists. -/
theorem auto_entry_complete_matches_spec_witness :
    (c6Official.lookup "repo" ≠ none) ∧
      createMinimalAddonEntryComplete c6Official = specAutoEntry c6Official ∧
      createMinimalAddonEntryComplete c6Official =
        [("repo", Val.str "a/b"), ("screenshot-main", Val.str "s.png"),
         ("screenshots-side", Val.strList []),
         ("tags", Val.strList ["dark", "minimalistic"])] :=
  ⟨by decide, auto_entry_complete_matches_spec c6Official (by decide), by decide⟩

/-- Claim C6 (counterexample): the automatic builder variant of
`Old/batch_processor (2).py`, run on the claim's concrete official record
`{"repo":"a/b","name":"Theme B","author":"X","screenshot":"s.png",
"modes":["dark"]}`, returns tags `["dark"]` — without `minimalistic` — not
the `["dark","minimalistic"]` the claim asserts for the automatic Entry
Builder. -/
theorem auto_entry_old2_omits_minimalistic :
    (createMinimalAddonEntryOld2 c6Official).lookup "tags" =
        some (Val.strList ["dark"]) ∧
      createMinimalAddonEntryOld2 c6Official ≠
        [("repo", Val.str "a/b"), ("screenshot-main", Val.str "s.png"),
         ("screenshots-side", Val.strList []),
         ("tags", Val.strList ["dark", "minimalistic"])] := by
  refine ⟨?_, ?_⟩ <;> decide

/-! ## Synchronisation summary percentages -/

/-- The `sync_percentage` entry of `DataSynchronizer.compare_json_files`
(`pythonThemeTools/data_synchronizer.py`, line 154):
`len(addon_repos & official_repos) / len(official_repos) * 100` when the
official repo set is nonempty, `0` otherwise. Real arithmetic is modelled
exactly over `ℚ`. -/
def compareSyncPercentage (official addon : List Record) : ℚ :=
  let officialRepos := getRepos official
  let addonRepos := getRepos addon
  if officialRepos.isEmpty then 0
  else ((addonRepos.filter (fun r => decide (r ∈ officialRepos))).length : ℚ) /
    (officialRepos.length : ℚ) * 100

/-- The percentage as the claim words it:
`|K_a ∩ K_o| / |K_o| * 100`, defined as `0` when `K_o` is empty, with the key
sets taken as finite sets of the `repo` values present. -/
def specSyncPercentage (official addon : List Record) : ℚ :=
  let ko := (official.filterMap (fun t => t.lookup "repo")).toFinset
  let ka := (addon.filterMap (fun t => t.lookup "repo")).toFinset
  if ko = ∅ then 0 else ((ka ∩ ko).card : ℚ) / (ko.card : ℚ) * 100

/-- The sync percentage `_menu_synchronization_status` prints
(`debloated_batch_processor.py`, lines 203–231): `none` when no official data
was loaded or the official repo set is empty (nothing printed); otherwise
`len(addon_repos) / len(official_repos) * 100` — the raw addon count, not the
intersection — over the truthiness-filtered repo sets. -/
def debloatedSyncPercentageReport (official addon : List Record) : Option ℚ :=
  if official.isEmpty then none
  else
    let officialRepos := ((official.map (fun e => pyGet e "repo")).filter pyTruthy).dedup
    let addonRepos := ((addon.map (fun e => pyGet e "repo")).filter pyTruthy).dedup
    if 0 < officialRepos.length then
      some ((addonRepos.length : ℚ) / (officialRepos.length : ℚ) * 100)
    else none

theorem toFinset_dedup_eq (l : List Val) : l.dedup.toFinset = l.toFinset := by
  ext x
  rw [List.mem_toFinset, List.mem_toFinset, List.mem_dedup]

/-- Claim C9 (amended): `DataSynchronizer.compare_json_files` reports
`sync_percentage = |K_a ∩ K_o| / |K_o| * 100` (0 when `K_o` is empty) — in
particular `50.0` for official keys `{a/b, c/d}` and addon keys `{a/b}`. The
sync percentage printed by `_menu_synchronization_status` in
`debloated_batch_processor.py` is a different quantity, `|K_a| / |K_o| * 100`
— see the counterexample. -/
theorem compare_sync_percentage_matches_spec (official addon : List Record) :
    compareSyncPercentage official addon = specSyncPercentage official addon := by
  rw [compareSyncPercentage, specSyncPercentage]
  have hko : (getRepos official).toFinset =
      (official.filterMap (fun t => t.lookup "repo")).toFinset := toFinset_dedup_eq _
  have hnd : (getRepos official).Nodup := by
    unfold getRepos
    exact List.nodup_dedup _
  have hcard : (getRepos official).length =
      (official.filterMap (fun t => t.lookup "repo")).toFinset.card := by
    rw [← hko]
    exact (List.toFinset_card_of_nodup hnd).symm
  have hempty : (getRepos official).isEmpty =
      decide ((official.filterMap (fun t => t.lookup "repo")).toFinset = ∅) := by
    rcases hl : (official.filterMap (fun t => t.lookup "repo")).dedup with _ | ⟨v, vs⟩
    · have : (official.filterMap (fun t => t.lookup "repo")) = [] :=
        (List.dedup_eq_nil _).mp hl
      simp [getRepos, hl, this]
    · have hne : (official.filterMap (fun t => t.lookup "repo")).toFinset ≠ ∅ := by
        rw [Ne, List.toFinset_eq_empty_iff]
        intro habs
        rw [habs] at hl
        simp at hl
      simp [getRepos, hl, hne]
  have hinter : ((getRepos addon).filter
        (fun r => decide (r ∈ getRepos official))).length =
      ((addon.filterMap (fun t => t.lookup "repo")).toFinset ∩
        (official.filterMap (fun t => t.lookup "repo")).toFinset).card := by
    have hnd : ((getRepos addon).filter
        (fun r => decide (r ∈ getRepos official))).Nodup :=
      List.Nodup.filter _ (List.nodup_dedup _)
    rw [← List.toFinset_card_of_nodup hnd]
    congr 1
    ext x
    rw [List.mem_toFinset, List.mem_filter, Finset.mem_inter, List.mem_toFinset,
      List.mem_toFinset]
    rw [getRepos, getRepos, List.mem_dedup, decide_eq_true_eq, List.mem_dedup]
  rw [hempty, hcard, hinter]
  by_cases he : (official.filterMap (fun t => t.lookup "repo")).toFinset = ∅
  · rw [if_pos (by simpa using he), if_pos he]
  · rw [if_neg (by simpa using he), if_neg he]

/-- The concrete lists of the claim's divergence: official `{a/b}`, addon a
single orphaned record `{x/y}`. -/
def c9Official : List Record := [[("repo", Val.str "a/b")]]

def c9Addon : List Record := [[("repo", Val.str "x/y")]]

/-- Claim C9 (counterexample): with one official record `a/b` and one addon
record `x/y`, the synchronisation status menu of
`debloated_batch_processor.py` prints a sync percentage of `100` while the
claimed formula `|K_a ∩ K_o| / |K_o| * 100` gives `0` (which is what
`compare_json_files` reports); the claim is false of the debloated summary. -/
theorem debloated_sync_percentage_diverges :
    debloatedSyncPercentageReport c9Official c9Addon = some 100 ∧
      specSyncPercentage c9Official c9Addon = 0 ∧
      compareSyncPercentage c9Official c9Addon = 0 ∧
      (some (100 : ℚ) ≠ some (0 : ℚ)) := by
  refine ⟨?_, ?_, ?_, by norm_num⟩
  · have ho : ((c9Official.map (fun e => pyGet e "repo")).filter pyTruthy).dedup =
        [Val.str "a/b"] := by decide
    have ha : ((c9Addon.map (fun e => pyGet e "repo")).filter pyTruthy).dedup =
        [Val.str "x/y"] := by decide
    simp only [debloatedSyncPercentageReport, ho, ha]
    norm_num
    exact fun h => absurd h (by decide)
  · have hko : (c9Official.filterMap (fun t => t.lookup "repo")).toFinset =
        {Val.str "a/b"} := by decide
    have hka : (c9Addon.filterMap (fun t => t.lookup "repo")).toFinset =
        {Val.str "x/y"} := by decide
    simp only [specSyncPercentage, hko, hka]
    norm_num
    decide
  · have h1 : getRepos c9Official = [Val.str "a/b"] := by decide
    have h2 : getRepos c9Addon = [Val.str "x/y"] := by decide
    simp only [compareSyncPercentage, h1, h2]
    norm_num
    decide

/-- The claim's concrete scenario: official keys `a/b` and `c/d`, addon key
`a/b`; `compare_json_files` reports `50.0`. -/
theorem compare_sync_percentage_fifty :
    compareSyncPercentage [[("repo", Val.str "a/b")], [("repo", Val.str "c/d")]]
      [[("repo", Val.str "a/b")]] = 50 := by
  have h1 : getRepos [[("repo", Val.str "a/b")], [("repo", Val.str "c/d")]] =
      [Val.str "a/b", Val.str "c/d"] := by decide
  have h2 : getRepos [[("repo", Val.str "a/b")]] = [Val.str "a/b"] := by decide
  simp only [compareSyncPercentage, h1, h2]
  norm_num

/-! ## Validator URL probe (`Old/batch_processor/core/validator.py`) -/

/-- The result container of the Validator
(`Old/batch_processor/core/validator.py`, lines 16–27); `severity` defaults
to `"error"` in the Python constructor, also for valid results. -/
structure ValidationResult where
  field : String
  is_valid : Bool
  message : String
  severity : String
deriving DecidableEq, Repr

/-- How the network reachability probe of `Validator.validate_url` ends:
an HTTP response with a status code, a request timeout
(`requests.exceptions.Timeout`), a connection failure
(`requests.exceptions.ConnectionError`), or any other exception. -/
inductive ProbeOutcome where
  | status (code : Nat)
  | timeout
  | connectionError
  | otherException (msg : String)
deriving DecidableEq, Repr

/-- The probe classification of `Validator.validate_url`
(`Old/batch_processor/core/validator.py`, lines 86–104): the `if`/`elif`
chain on `response.status_code` and the exception handlers. (The earlier
empty-URL and URL-format checks of lines 72–83 precede the probe and are not
part of this classification.) -/
def validateUrlProbe : ProbeOutcome → ValidationResult
  | .status code =>
    if code = 200 then ⟨"url", true, "URL is accessible", "error"⟩
    else if code = 404 then ⟨"url", false, "URL not found (404)", "error"⟩
    else if code = 403 then ⟨"url", false, "Access forbidden (403)", "warning"⟩
    else ⟨"url", false, "HTTP " ++ toString code, "warning"⟩
  | .timeout => ⟨"url", false, "URL request timed out", "warning"⟩
  | .connectionError => ⟨"url", false, "Connection error", "warning"⟩
  | .otherException msg => ⟨"url", false, "Network error: " ++ msg, "warning"⟩

/-- The validity/severity classification as the amended claim words it: only
a response with status exactly `200` yields a valid result (whose severity
slot holds the constructor default `"error"`, unused for valid results); a
`404` yields invalid with error severity; a `403`, any other non-`200`
status — including the remaining `2xx` codes — a timeout, a connection
failure, or any other network error yields invalid with warning severity. -/
def specUrlClassification : ProbeOutcome → Bool × String
  | .status code =>
    if code = 200 then (true, "error")
    else if code = 404 then (false, "error")
    else (false, "warning")
  | _ => (false, "warning")

/-- Claim C10 (amended): the probe classification of `validate_url` agrees
with `specUrlClassification` on every outcome — valid exactly on status
`200` (not on all of `2xx`), invalid/error on `404`, and invalid/warning on
`403`, on every other status, on timeout and on connection failure. -/
theorem validate_url_probe_classification (p : ProbeOutcome) :
    ((validateUrlProbe p).is_valid, (validateUrlProbe p).severity) =
      specUrlClassification p := by
  cases p with
  | status code =>
    by_cases h200 : code = 200
    · simp [validateUrlProbe, specUrlClassification, h200]
    · by_cases h404 : code = 404
      · simp [validateUrlProbe, specUrlClassification, h200, h404]
      · by_cases h403 : code = 403
        · simp [validateUrlProbe, specUrlClassification, h200, h404, h403]
        · simp [validateUrlProbe, specUrlClassification, h200, h404, h403]
  | timeout => rfl
  | connectionError => rfl
  | otherException msg => rfl

/-- Claim C10 (counterexample): the statuses `201` and `204` are `2xx`
responses, yet `validate_url` classifies them as invalid with warning
severity — only the exact status `200` yields a valid result — so "a response
with a 2xx status code yields a valid result" is false. -/
theorem validate_url_2xx_not_valid :
    (200 ≤ 201 ∧ 201 < 300 ∧ (validateUrlProbe (.status 201)).is_valid = false ∧
        (validateUrlProbe (.status 201)).severity = "warning") ∧
      (200 ≤ 204 ∧ 204 < 300 ∧ (validateUrlProbe (.status 204)).is_valid = false ∧
        (validateUrlProbe (.status 204)).severity = "warning") := by
  refine ⟨⟨?_, ?_, ?_, ?_⟩, ⟨?_, ?_, ?_, ?_⟩⟩ <;> decide
